import Mathlib

/-!
Verification of the clio-py annotation synchronization pipeline.

This file is a shallow embedding of the push/pull logic of the repository
(`src/clio/push.py` and `src/clio/pull.py`): the merge pipeline of
`set_annotations` (duplicate/null identifier checks, the empty-field drop,
the existence check, the protection policy, the no-op record drop, the
null normalization and the chunked upload), the `set_fields` wrapper, the
`ids_exist` existence check of `pull.py`, and the `_validate_schema`
validator. Python dicts become association lists, pandas nulls become an
explicit `vnull` value, and the HTTP backend becomes an explicit `Backend`
record (the cached annotated-id set, the dvid existence predicate and the
remote annotation store).
-/

/-- Runtime value of an annotation field as handled by the Python code.
`vnull` stands for the values recognised by `pd.isnull` (None / NaN).
Array contents are irrelevant to every verified property, so `varr` is a
bare marker for array/ndarray values. -/
inductive Value where
  | vnull
  | vint (n : Int)
  | vstr (s : String)
  | vbool (b : Bool)
  | varr
deriving DecidableEq, Repr

/-- pandas `pd.isnull`: true exactly for None/NaN. In particular
`pd.isnull("")` is `False`: the empty string is not a pandas null. -/
def pd_isnull (v : Value) : Bool := v == Value.vnull

/-- One record of `x.to_dict(orient="records")`: a dict from column name to
value, as an association list. -/
abbrev Rec := List (String × Value)

/-- Keys of a record dict. -/
def recKeys (r : Rec) : List String := r.map Prod.fst

/-- Value of the "bodyid" entry of a record (the `x.bodyid` column value). -/
def recBodyVal (r : Rec) : Value := (r.lookup "bodyid").getD Value.vnull

/-- The integer body id of a record (`at["bodyid"]` after
`x["bodyid"] = x.bodyid.astype(int)`); junk 0 when absent or non-integer,
which the duplicate/null checks rule out on the paths that use it. -/
def recBody (r : Rec) : Int :=
  match r.lookup "bodyid" with
  | some (Value.vint n) => n
  | _ => 0

/-- The `protect` argument of `set_annotations`: `True`, `False`, or a
list/tuple of field names. -/
inductive Protect where
  | pTrue
  | pFalse
  | pList (fields : List String)
deriving DecidableEq, Repr

/-- Errors raised by the `set_annotations` pipeline (push.py lines 205-224):
the two ValueErrors for duplicate and empty body IDs and the ValueError
naming the body ids that do not exist. -/
inductive PushErr where
  | duplicateIds
  | nullIds
  | unknownIds (ids : List Int)
deriving DecidableEq, Repr

/-- The remote backend as seen by the client: the cached set of annotated
bodies (`_annotated_bodies`), the dvid existence predicate (`dv.ids_exist`),
and the remote annotation store (body id to its populated fields), which
`fetch_annotations` marshals into a pandas DataFrame. -/
structure Backend where
  annotated : List Int
  dvid : Int → Bool
  store : List (Int × Rec)

/-- pull.py `ids_exist` (lines 188-208): start with `exists = zeros`, set
True where the body id is in the cached annotated set (`np.isin`), and if
any entry is still False issue one `dv.ids_exist` call on the WHOLE
`bodyid` array and OR its boolean mask in. -/
def ids_exist (annotated : List Int) (dvid : Int → Bool) (bodyid : List Int) : List Bool :=
  let ex := bodyid.map (fun b => annotated.contains b)
  if ex.any (fun e => !e) then List.zipWith (fun e b => e || dvid b) ex bodyid
  else ex

/-- The identifiers passed to the `dv.ids_exist` backend query inside
`ids_exist`: the full input list whenever at least one id is not in the
cached annotated set, and nothing otherwise (the call is skipped). -/
def dvidQueried (annotated : List Int) (bodyid : List Int) : List Int :=
  if (bodyid.map (fun b => annotated.contains b)).any (fun e => !e) then bodyid else []

/-- Following the spec's words (claim C7): the "unknown" partition of the
input identifiers, i.e. those not in the cached annotated set. Used only to
compare the spec's description against `dvidQueried`. -/
def specUnknownPartition (annotated : List Int) (bodyid : List Int) : List Int :=
  bodyid.filter (fun b => !annotated.contains b)

/-- Columns of the DataFrame returned by `fetch_annotations` for the given
ids, minus the "bodyid" index column: pandas builds the frame from the
per-body JSON records, so the columns are the union of the field names of
every fetched body (first-seen order, deduplicated). -/
def fetchCols (store : List (Int × Rec)) (ids : List Int) : List String :=
  (((store.filter (fun p => ids.contains p.1)).map (fun p => recKeys p.2)).flatten).dedup

/-- push.py lines 228-232: `existing`, the index consulted by the protection
policy. `fetch_annotations(...).set_index("bodyid").to_dict(orient="index")`
maps every fetched body id to a dict over ALL non-bodyid columns (nulls
included), so `list(v)` is the full column list — the same for every
fetched id. Ids with no remote annotations get `existing.get(id, [])`'s
default `[]`. -/
def existingFor (store : List (Int × Rec)) (ids : List Int) (id : Int) : List String :=
  if ids.contains id && (store.lookup id).isSome then fetchCols store ids else []

/-- Following the spec's words (claim C2): the set of field names already
populated remotely for one identifier — a field whose remote value is
absent or null for that identifier is not in its set. Used only to compare
the spec's description against `existingFor`. -/
def specPopulatedFields (store : List (Int × Rec)) (id : Int) : List String :=
  ((store.lookup id).getD []).filterMap (fun kv => if pd_isnull kv.2 then none else some kv.1)

/-- push.py lines 213-215: when `write_empty_fields` is False drop every
entry whose value is a pandas null from each record dict. -/
def dropEmpties (write_empty_fields : Bool) (an : List Rec) : List Rec :=
  if write_empty_fields then an
  else an.map (fun r => r.filter (fun kv => !pd_isnull kv.2))

/-- push.py lines 236-239 (`protect is True`): keep a key only if it is not
in the identifier's existing field list. -/
def protectRecAll (existing : Int → List String) (r : Rec) : Rec :=
  r.filter (fun kv => !(existing (recBody r)).contains kv.1)

/-- push.py lines 241-248 (`protect` a list): keep a key if it is not in
the existing field list or not in the protect list
(`k not in existing.get(at["bodyid"], []) or k not in protect`). -/
def protectRecNamed (prot : List String) (existing : Int → List String) (r : Rec) : Rec :=
  r.filter (fun kv => !((existing (recBody r)).contains kv.1 && prot.contains kv.1))

/-- push.py lines 227-248: apply the protection policy; `protect=False`
skips the whole block. -/
def applyProtect (protect : Protect) (existing : Int → List String) (an : List Rec) : List Rec :=
  match protect with
  | Protect.pFalse => an
  | Protect.pTrue => an.map (protectRecAll existing)
  | Protect.pList prot => an.map (protectRecNamed prot existing)

/-- push.py line 251: drop any record that is only `{"bodyid"}`
(`[a for a in an if len(a) > 1]`). -/
def dropSolo (an : List Rec) : List Rec := an.filter (fun r => decide (1 < r.length))

/-- push.py line 254: replace any null with an explicit None
(`v if not pd.isnull(v) else None`). -/
def normalizeNulls (an : List Rec) : List Rec :=
  an.map (fun r => r.map (fun kv => (kv.1, if pd_isnull kv.2 then Value.vnull else kv.2)))

/-- The merge pipeline of `set_annotations` after the identifier checks:
empty-field drop, protection policy, no-op drop, null normalization. -/
def mergeWrites (write_empty_fields : Bool) (protect : Protect) (existing : Int → List String)
    (an : List Rec) : List Rec :=
  normalizeNulls (dropSolo (applyProtect protect existing (dropEmpties write_empty_fields an)))

/-- push.py line 223: the body ids reported in the unknown-id error,
`x.bodyid.values[~exists]`. -/
def offenders (ids : List Int) (ex : List Bool) : List Int :=
  (ids.zip ex).filterMap (fun p => if p.2 then none else some p.1)

/-- push.py `set_annotations`, lines 202-257 (the merge part; the optional
schema validation of line 200 is `_validate_schema`, modelled separately):
duplicate check, null check, empty-field drop, existence check, protection
policy, no-op drop, null normalization. Returns the write-set handed to
the chunked uploader, or the first error raised. -/
def set_annotations (x : List Rec) (write_empty_fields : Bool) (protect : Protect) (b : Backend) :
    Except PushErr (List Rec) :=
  if (x.map recBodyVal).Nodup then
    if (x.map recBodyVal).any pd_isnull then Except.error PushErr.nullIds
    else
      let ids := x.map recBody
      let ex := ids_exist b.annotated b.dvid ids
      if ex.any (fun e => !e) then Except.error (PushErr.unknownIds (offenders ids ex))
      else Except.ok (mergeWrites write_empty_fields protect (existingFor b.store ids) x)
  else Except.error PushErr.duplicateIds

/-- push.py lines 101-106: strip one trailing underscore from a field
name (e.g. `class_` becomes `class`). -/
def stripTrailing (k : String) : String :=
  if k.toList.getLast? = some '_' then (k.toList.dropLast).asString else k

/-- push.py lines 98-106: the DataFrame built by `set_fields` — one row
per body id, every row carrying the same scalar field values. -/
def set_fields_table (ids : List Int) (fields : List (String × Value)) : List Rec :=
  ids.map (fun i => ("bodyid", Value.vint i) :: fields.map (fun kv => (stripTrailing kv.1, kv.2)))

/-- push.py `set_fields` (lines 26-118): build the table and delegate to
`set_annotations` with `write_empty_fields=True`. -/
def set_fields (ids : List Int) (fields : List (String × Value)) (protect : Protect) (b : Backend) :
    Except PushErr (List Rec) :=
  set_annotations (set_fields_table ids fields) true protect b

/-- Both `Except` sides decidably equal makes the whole result decidably
equal; used to evaluate the pipeline on concrete inputs. -/
instance exceptDecEq {e : Type} {a : Type} [DecidableEq e] [DecidableEq a] :
    DecidableEq (Except e a) := fun x y =>
  match x, y with
  | Except.ok u, Except.ok v =>
    if h : u = v then isTrue (congrArg Except.ok h)
    else isFalse (fun hh => h (Except.ok.inj hh))
  | Except.error u, Except.error v =>
    if h : u = v then isTrue (congrArg Except.error h)
    else isFalse (fun hh => h (Except.error.inj hh))
  | Except.ok _, Except.error _ => isFalse (fun hh => Except.noConfusion hh)
  | Except.error _, Except.ok _ => isFalse (fun hh => Except.noConfusion hh)

/-- Recursion core of `chunksOf`, structural on a fuel bound on the list
length so that it evaluates by kernel reduction. Each step takes one chunk
`l.take cs` and recurses on the rest of the list. -/
def chunksOfGo {α : Type} (cs : Nat) : Nat → List α → List (List α)
  | _, [] => []
  | 0, _ => []
  | fuel + 1, a :: t => ((a :: t).take cs) :: chunksOfGo cs fuel (t.drop (cs - 1))

/-- push.py lines 266-267: the chunks `an[i : i + chunksize]` for
`i in range(0, len(an), chunksize)`. A chunk size of 0 makes `range` raise
in Python; the value returned for it here is junk, never used. -/
def chunksOf {α : Type} (cs : Nat) (l : List α) : List (List α) :=
  if cs = 0 then [] else chunksOfGo cs l.length l

/-- Outcome of the chunked upload loop: the chunks whose POST got a 2xx
response (applied remotely), the chunks actually POSTed, and the index of
the chunk whose `raise_for_status` aborted the loop, if any. -/
structure UploadResult where
  applied : List (List Rec)
  sent : List (List Rec)
  failedChunk : Option Nat
deriving DecidableEq, Repr

/-- push.py lines 266-270: POST each chunk in order; a non-2xx response
(`r.raise_for_status()`) aborts immediately, after that chunk was sent but
before any later chunk is sent. `respOk i` models the HTTP response status
of the chunk with index `i`. -/
def uploadFrom (respOk : Nat → Bool) : Nat → List (List Rec) → UploadResult
  | _, [] => ⟨[], [], none⟩
  | i, c :: rest =>
    if respOk i then
      let r := uploadFrom respOk (i + 1) rest
      ⟨c :: r.applied, c :: r.sent, r.failedChunk⟩
    else ⟨[], [c], some i⟩

/-- push.py lines 263-270: the whole upload loop over the chunked
write-set. -/
def upload (respOk : Nat → Bool) (chunksize : Nat) (an : List Rec) : UploadResult :=
  uploadFrom respOk 0 (chunksOf chunksize an)

/-- Default of the `chunksize` parameter of `set_annotations` and
`set_fields` (push.py lines 33 and 130). -/
def defaultChunksize : Nat := 50

/-- The chunks actually applied remotely by a full
`set_annotations`-then-upload run: nothing at all when the merge pipeline
raised. -/
def set_annotations_applied (x : List Rec) (write_empty_fields : Bool) (protect : Protect)
    (b : Backend) (respOk : Nat → Bool) (chunksize : Nat) : List (List Rec) :=
  match set_annotations x write_empty_fields protect b with
  | Except.error _ => []
  | Except.ok an => (upload respOk chunksize an).applied

/-- Errors raised by `_validate_schema` (push.py lines 285-351). -/
inductive SchemaErr where
  | missingRequired (col : String)
  | unexpectedTypeList (col : String)
  | nullNotAllowed (col : String)
  | typeMismatch (col : String)
  | invalidFields (cols : List String)
deriving DecidableEq, Repr

/-- The Python runtime types appearing in `TYPES_MAPPING` (push.py lines
17-22). The numpy integer types behave exactly like `int` on the embedded
values, so one constructor stands for the whole integer family. -/
inductive PyType where
  | pyInt
  | pyStr
  | pyObject
  | pyNdarray
  | pyBool
deriving DecidableEq, Repr

/-- push.py lines 17-22: map a declared schema type to the tuple of
acceptable Python runtime types. An unknown key is a Python `KeyError`;
the empty list returned for it here is junk, never reached by the claims. -/
def TYPES_MAPPING (t : String) : List PyType :=
  match t with
  | "integer" => [PyType.pyInt]
  | "string" => [PyType.pyStr, PyType.pyObject]
  | "array" => [PyType.pyObject, PyType.pyNdarray]
  | "boolean" => [PyType.pyBool]
  | _ => []

/-- Python `isinstance` on the embedded values. Note two Python facts the
code inherits: every value is an instance of `object`, and `bool` is a
subclass of `int`. -/
def isinstanceOf (v : Value) (t : PyType) : Bool :=
  match t, v with
  | PyType.pyObject, _ => true
  | PyType.pyInt, Value.vint _ => true
  | PyType.pyInt, Value.vbool _ => true
  | PyType.pyStr, Value.vstr _ => true
  | PyType.pyNdarray, Value.varr => true
  | _, _ => false

/-- The pandas dtype of a column as relevant to `_validate_schema`:
`int64`, `bool`, or `object` (heterogeneous, strings, nulls, arrays, or
empty). -/
inductive Dtype where
  | dtInt
  | dtBool
  | dtObj
deriving DecidableEq, Repr

/-- pandas dtype inference for a column of embedded values: a non-empty
all-integer column is int64, a non-empty all-bool column is bool,
everything else (the code's `dtype.kind == "O"` case) is object. -/
def dtypeOf (vs : List Value) : Dtype :=
  if !vs.isEmpty && vs.all (fun v => match v with | Value.vint _ => true | _ => false) then
    Dtype.dtInt
  else if !vs.isEmpty && vs.all (fun v => match v with | Value.vbool _ => true | _ => false) then
    Dtype.dtBool
  else Dtype.dtObj

/-- push.py line 342, `x[col].dtype not in expected_types` (negated): numpy
dtype equality against the entries of the `TYPES_MAPPING` tuple —
`dtype('int64')` equals the integer family members, `dtype('bool')` equals
`bool`, and neither equals `str` or `object`. The `dtObj` case never
reaches this test (the `kind == "O"` branch handles it). -/
def dtypeInTypes (d : Dtype) (ts : List PyType) : Bool :=
  match d with
  | Dtype.dtInt => ts.contains PyType.pyInt
  | Dtype.dtBool => ts.contains PyType.pyBool
  | Dtype.dtObj => ts.contains PyType.pyObject

/-- The JSON `"type"` entry of one schema property: a single type string
or a list of type strings. -/
inductive JsonType where
  | single (t : String)
  | listT (ts : List String)
deriving DecidableEq, Repr

/-- push.py lines 308-321: extract the nullable flag and the one declared
type; a list must reduce to exactly one non-"null" entry or the code
raises. -/
def nullableAndType (col : String) : JsonType → Except SchemaErr (Bool × String)
  | JsonType.single t => Except.ok (t == "null", t)
  | JsonType.listT ts =>
    match ts.filter (fun t => t != "null") with
    | [t] => Except.ok (ts.contains "null", t)
    | _ => Except.error (SchemaErr.unexpectedTypeList col)

/-- push.py lines 328-346: check one column present in the table against
its declared acceptable types. Object-dtype columns are checked
element-wise with `isinstance` on the non-null values (after the
nullability check); homogeneous columns are checked at the dtype level. -/
def checkColumn (col : String) (nullable : Bool) (ts : List PyType) (vs : List Value) :
    Except SchemaErr Unit :=
  if dtypeOf vs = Dtype.dtObj then
    if !nullable && vs.any pd_isnull then Except.error (SchemaErr.nullNotAllowed col)
    else
      match (vs.filter (fun v => !pd_isnull v)).find? (fun v => !ts.any (isinstanceOf v)) with
      | some _ => Except.error (SchemaErr.typeMismatch col)
      | none => Except.ok ()
  else if !dtypeInTypes (dtypeOf vs) ts then Except.error (SchemaErr.typeMismatch col)
  else Except.ok ()

/-- A candidate table as a list of named columns. -/
abbrev ColTable := List (String × List Value)

/-- push.py lines 294-346: the body of the properties loop for one schema
property; properties without a `"type"` key (the `oneOf` positional
columns) and columns absent from the table are skipped. -/
def checkProp (col : String) (jt : Option JsonType) (x : ColTable) : Except SchemaErr Unit :=
  match jt with
  | none => Except.ok ()
  | some jt =>
    match nullableAndType col jt with
    | Except.error e => Except.error e
    | Except.ok (nullable, t) =>
      match x.lookup col with
      | none => Except.ok ()
      | some vs => checkColumn col nullable (TYPES_MAPPING t) vs

/-- The properties loop: first error wins, in declaration order. -/
def checkProps : List (String × Option JsonType) → ColTable → Except SchemaErr Unit
  | [], _ => Except.ok ()
  | (col, jt) :: rest, x =>
    match checkProp col jt x with
    | Except.ok _ => checkProps rest x
    | Except.error e => Except.error e

/-- push.py lines 289-291: every required field must be a table column. -/
def checkRequired : List String → ColTable → Except SchemaErr Unit
  | [], _ => Except.ok ()
  | v :: rest, x =>
    if (x.lookup v).isSome then checkRequired rest x
    else Except.error (SchemaErr.missingRequired v)

/-- push.py lines 348-351: columns outside the fetched field list are
invalid. -/
def checkUnknown (known : List String) (x : ColTable) : Except SchemaErr Unit :=
  let wrong := (x.map Prod.fst).filter (fun c => !known.contains c)
  if wrong.isEmpty then Except.ok () else Except.error (SchemaErr.invalidFields wrong)

/-- The fetched JSON schema: required field names and per-field type
specs. -/
structure Schema where
  required : List String
  properties : List (String × Option JsonType)

/-- push.py `_validate_schema` (lines 285-351): required columns, then the
per-property type checks, then the unknown-field check. -/
def _validate_schema (schema : Schema) (known : List String) (x : ColTable) :
    Except SchemaErr Unit := do
  checkRequired schema.required x
  checkProps schema.properties x
  checkUnknown known x

/-- Following the spec's words (claim C8): whether a value's runtime kind
is in the declared type's acceptable kind set — integer family, string,
array/object, boolean. Used only to compare the spec's description against
the validator. -/
def specKindAcceptable (t : String) (v : Value) : Bool :=
  match t, v with
  | "integer", Value.vint _ => true
  | "string", Value.vstr _ => true
  | "boolean", Value.vbool _ => true
  | "array", Value.varr => true
  | _, _ => false

/-- Index of existing fields for the C1 scenario: identifier 1 already has
a `status` field. -/
def c1Index : Int → List String := fun id => if id = 1 then ["status"] else []

/-- Input records of the C1 scenario: identifiers 1 and 2, each with the
new field `status = "Soma Anchor"`. -/
def c1Records : List Rec :=
  [[("bodyid", Value.vint 1), ("status", Value.vstr "Soma Anchor")],
   [("bodyid", Value.vint 2), ("status", Value.vstr "Soma Anchor")]]

/-- Remote store for C2: body 1 has only `status` populated, body 2 has
only `type` populated. -/
def c2Store : List (Int × Rec) :=
  [(1, [("status", Value.vstr "X")]), (2, [("type", Value.vstr "Y")])]

/-- Backend for C3: body 1 exists, is annotated, and has a `user` field. -/
def c3Backend : Backend := ⟨[1], fun _ => true, [(1, [("user", Value.vstr "someone")])]⟩

/-- Backend for C4: bodies 1 and 2 exist and are annotated. -/
def c4Backend : Backend := ⟨[1, 2], fun _ => true, []⟩

/-- Backend for C5: nothing is annotated and nothing exists. -/
def c5Backend : Backend := ⟨[], fun _ => false, []⟩

/-- Schema for C8 declaring column `type` as `{"type": "integer"}`. -/
def c8SchemaInt : Schema := ⟨[], [("type", some (JsonType.single "integer"))]⟩

/-- Schema for C8's counterexample declaring column `notes` as
`{"type": "string"}`. -/
def c8SchemaStr : Schema := ⟨[], [("notes", some (JsonType.single "string"))]⟩

/-- A one-field write record for the C9 upload scenario. -/
def c9r (k : Int) : Rec := [("bodyid", Value.vint k)]

/-- The five writes of the C9 upload scenario. -/
def c9Records : List Rec := [c9r 1, c9r 2, c9r 3, c9r 4, c9r 5]

/-- Backend for C10: body 1 exists, is annotated, and has a `user` field. -/
def c10Backend : Backend := ⟨[1], fun _ => true, [(1, [("user", Value.vstr "someone")])]⟩

/-- The field names written for one identifier by a write-set. -/
def writtenFieldsFor (writes : List Rec) (id : Int) : List String :=
  ((writes.filter (fun r => recBody r == id)).map recKeys).flatten

/-- The existing-field index after a write-set has been applied: each
written field name is now present for its identifier; nothing else
changes. -/
def updatedIdx (existing : Int → List String) (writes : List Rec) (id : Int) : List String :=
  existing id ++ writtenFieldsFor writes id

/-- Zipping a mapped copy of a list with the list itself is a map. -/
theorem zipWith_map_self {α β γ : Type} (f : β → α → γ) (g : α → β) (l : List α) :
    List.zipWith f (l.map g) l = l.map (fun x => f (g x) x) := by
  induction l with
  | nil => rfl
  | cons a t ih => simp [ih]

/-- The null-normalization step is the identity on one dict entry, because
`vnull` is the only embedded null. -/
theorem normPair_eq (kv : String × Value) :
    ((kv.1, if pd_isnull kv.2 then Value.vnull else kv.2) : String × Value) = kv := by
  obtain ⟨k, v⟩ := kv
  by_cases h : v = Value.vnull
  · simp [pd_isnull, h]
  · simp [pd_isnull, h]

/-- The null-normalization step of push.py line 254 is the identity on the
embedded records. -/
theorem normalizeNulls_eq (an : List Rec) : normalizeNulls an = an := by
  unfold normalizeNulls
  simp [normPair_eq]

/-- Filtering with a predicate that keeps every entry of a given key does
not change that key's lookup. -/
theorem lookup_filter_of_key (p : String × Value → Bool) (r : Rec) (a : String)
    (h : ∀ v, p (a, v) = true) : (r.filter p).lookup a = r.lookup a := by
  induction r with
  | nil => rfl
  | cons kv t ih =>
    obtain ⟨k, v⟩ := kv
    by_cases hk : k = a
    · subst hk
      simp [List.filter_cons, h v, List.lookup]
    · have hak : (a == k) = false := by
        simp only [beq_eq_false_iff_ne, ne_eq]
        exact fun hh => hk hh.symm
      by_cases hp : p (k, v) = true
      · simp [List.filter_cons, hp, List.lookup, hak, ih]
      · simp [List.filter_cons, hp, List.lookup, hak, ih]

/-- C1: Under the protect-named-set policy (push.py lines 241-248) a field
of a record survives if and only if it is NOT the case that its name is
already in the identifier's existing field set AND in the protected-name
set — i.e. it is dropped exactly when both hold; and on the spec scenario
(identifiers [1,2], new field status="Soma Anchor", existing index
{1: ["status"]}, protected set {"status"}) the merge pipeline produces
exactly [{bodyid: 2, status: "Soma Anchor"}]. -/
theorem C1_protect_named_set (prot : List String) (existing : Int → List String)
    (r : Rec) (k : String) (v : Value) :
    ((k, v) ∈ protectRecNamed prot existing r ↔
      ((k, v) ∈ r ∧ ¬(k ∈ existing (recBody r) ∧ k ∈ prot)))
    ∧ mergeWrites false (Protect.pList ["status"]) c1Index c1Records
      = [[("bodyid", Value.vint 2), ("status", Value.vstr "Soma Anchor")]] := by
  constructor
  · unfold protectRecNamed
    rw [List.mem_filter]
    simp [List.contains, List.elem_iff]
    tauto
  · decide

/-- Witness for C1: the general field-survival criterion applied at a
concrete input yields the scenario write-set. -/
theorem C1_witness :
    mergeWrites false (Protect.pList ["status"]) c1Index c1Records
      = [[("bodyid", Value.vint 2), ("status", Value.vstr "Soma Anchor")]] :=
  (C1_protect_named_set [] (fun _ => []) [] "x" Value.vnull).2

/-- C2 counterexample: with remote store {1: {status: "X"}, 2: {type: "Y"}}
and fetched ids [1,2], the protection index gives body 1 the field "type",
although "type" is not populated remotely for body 1 — the index is the
union of the fetched table's columns, not the per-identifier populated
set the claim describes. -/
theorem C2_counterexample :
    "type" ∈ existingFor c2Store [1, 2] 1 ∧ "type" ∉ specPopulatedFields c2Store 1 := by
  decide

/-- C2 (amended): the existing-annotation index maps every fetched
identifier (one that is among the requested ids and has remote
annotations) to the full column list of the fetched table — the union of
the field names of ALL fetched identifiers — and unfetched identifiers to
the empty list. -/
theorem C2_existing_index (store : List (Int × Rec)) (ids : List Int) (id : Int) (k : String)
    (h1 : id ∈ ids) (h2 : (store.lookup id).isSome = true) :
    existingFor store ids id = fetchCols store ids
    ∧ (k ∈ fetchCols store ids ↔ ∃ i r, i ∈ ids ∧ (i, r) ∈ store ∧ k ∈ recKeys r) := by
  constructor
  · unfold existingFor
    rw [if_pos]
    rw [Bool.and_eq_true, h2]
    simp [List.contains, List.elem_iff, h1]
  · unfold fetchCols
    rw [List.mem_dedup, List.mem_flatten]
    constructor
    · rintro ⟨l, hl, hk⟩
      rw [List.mem_map] at hl
      obtain ⟨p, hp, rfl⟩ := hl
      rw [List.mem_filter] at hp
      refine ⟨p.1, p.2, ?_, hp.1, hk⟩
      have := hp.2
      simpa [List.contains, List.elem_iff] using this
    · rintro ⟨i, r, hi, hir, hk⟩
      refine ⟨recKeys r, ?_, hk⟩
      rw [List.mem_map]
      refine ⟨(i, r), ?_, rfl⟩
      rw [List.mem_filter]
      exact ⟨hir, by simpa [List.contains, List.elem_iff] using hi⟩

/-- Witness for C2's amended theorem at a concrete fetched identifier. -/
theorem C2_witness :
    existingFor c2Store [1, 2] 1 = fetchCols c2Store [1, 2] :=
  (C2_existing_index c2Store [1, 2] 1 "status" (by decide) (by decide)).1

/-- C3: pandas does not treat the empty string as null, so with
`write_empty_fields=False` a field holding `""` survives the empty-field
drop and is written — here the whole pipeline at the failing input
{bodyid: 1, status: ""} emits that record unchanged, although the claim
(and the function's own docstring, push.py lines 144-150) says empty
fields, the empty string included, are dropped. -/
theorem C3_empty_string_written :
    pd_isnull (Value.vstr "") = false
    ∧ set_annotations [[("bodyid", Value.vint 1), ("status", Value.vstr "")]] false
        (Protect.pList ["user"]) c3Backend
      = Except.ok [[("bodyid", Value.vint 1), ("status", Value.vstr "")]] := by
  decide

/-- The existence check returns one boolean per input identifier. -/
theorem ids_exist_length (annotated : List Int) (dvid : Int → Bool) (bodyid : List Int) :
    (ids_exist annotated dvid bodyid).length = bodyid.length := by
  unfold ids_exist
  dsimp only []
  split
  · simp
  · simp

/-- When some entry of the existence vector is false, the reported
offender list is non-empty. -/
theorem offenders_ne_nil : ∀ (ids : List Int) (ex : List Bool), ids.length = ex.length →
    ex.any (fun e => !e) = true → offenders ids ex ≠ [] := by
  intro ids
  induction ids with
  | nil =>
    intro ex hlen h
    cases ex with
    | nil => simp at h
    | cons e es => simp at hlen
  | cons a t ih =>
    intro ex hlen h
    cases ex with
    | nil => simp at hlen
    | cons e es =>
      cases e with
      | false => simp [offenders]
      | true =>
        have hr := ih es (by simpa using hlen) (by simpa using h)
        simpa [offenders] using hr

/-- C4: a table whose identifier column has a duplicate or a null fails
with the corresponding ValueError of push.py lines 205-209, before
anything is computed or posted: the applied chunk list of the full run is
empty. -/
theorem C4_duplicate_or_null (x : List Rec) (write_empty_fields : Bool) (protect : Protect)
    (b : Backend) (respOk : Nat → Bool) (chunksize : Nat)
    (h : ¬ (x.map recBodyVal).Nodup ∨ (x.map recBodyVal).any pd_isnull = true) :
    (set_annotations x write_empty_fields protect b = Except.error PushErr.duplicateIds
      ∨ set_annotations x write_empty_fields protect b = Except.error PushErr.nullIds)
    ∧ set_annotations_applied x write_empty_fields protect b respOk chunksize = [] := by
  by_cases hd : (x.map recBodyVal).Nodup
  · rcases h with h | h
    · exact absurd hd h
    · have he : set_annotations x write_empty_fields protect b = Except.error PushErr.nullIds := by
        simp [set_annotations, hd, h]
      exact ⟨Or.inr he, by unfold set_annotations_applied; rw [he]⟩
  · have he : set_annotations x write_empty_fields protect b
        = Except.error PushErr.duplicateIds := by
      simp [set_annotations, hd]
    exact ⟨Or.inl he, by unfold set_annotations_applied; rw [he]⟩

/-- Witness for C4 at a table with duplicate body id 1. -/
theorem C4_witness :
    (set_annotations [[("bodyid", Value.vint 1)], [("bodyid", Value.vint 1)]] false
        (Protect.pList ["user"]) c4Backend = Except.error PushErr.duplicateIds
      ∨ set_annotations [[("bodyid", Value.vint 1)], [("bodyid", Value.vint 1)]] false
        (Protect.pList ["user"]) c4Backend = Except.error PushErr.nullIds)
    ∧ set_annotations_applied [[("bodyid", Value.vint 1)], [("bodyid", Value.vint 1)]] false
        (Protect.pList ["user"]) c4Backend (fun _ => true) 50 = [] :=
  C4_duplicate_or_null _ _ _ _ _ _ (Or.inl (by decide))

/-- C5: a table (with valid, unique identifiers) containing at least one
identifier the existence check reports as missing fails with the
unknown-identifier error naming exactly the offending identifiers
(push.py lines 217-224), the offender list is non-empty, and nothing is
posted: the applied chunk list of the full run is empty. -/
theorem C5_unknown_ids (x : List Rec) (write_empty_fields : Bool) (protect : Protect) (b : Backend)
    (respOk : Nat → Bool) (chunksize : Nat)
    (h1 : (x.map recBodyVal).Nodup)
    (h2 : (x.map recBodyVal).any pd_isnull = false)
    (h3 : (ids_exist b.annotated b.dvid (x.map recBody)).any (fun e => !e) = true) :
    set_annotations x write_empty_fields protect b
      = Except.error (PushErr.unknownIds
          (offenders (x.map recBody) (ids_exist b.annotated b.dvid (x.map recBody))))
    ∧ offenders (x.map recBody) (ids_exist b.annotated b.dvid (x.map recBody)) ≠ []
    ∧ set_annotations_applied x write_empty_fields protect b respOk chunksize = [] := by
  have he : set_annotations x write_empty_fields protect b
      = Except.error (PushErr.unknownIds
          (offenders (x.map recBody) (ids_exist b.annotated b.dvid (x.map recBody)))) := by
    simp [set_annotations, h1, h2, h3]
  refine ⟨he, ?_, ?_⟩
  · exact offenders_ne_nil _ _ (by rw [ids_exist_length]) h3
  · unfold set_annotations_applied
    rw [he]

/-- Witness for C5 at a table whose body id 99 neither is annotated nor
exists on the backend. -/
theorem C5_witness :
    set_annotations [[("bodyid", Value.vint 99)]] false (Protect.pList ["user"]) c5Backend
      = Except.error (PushErr.unknownIds (offenders ([[("bodyid", Value.vint 99)]].map recBody)
          (ids_exist c5Backend.annotated c5Backend.dvid ([[("bodyid", Value.vint 99)]].map recBody))))
    ∧ offenders ([[("bodyid", Value.vint 99)]].map recBody)
        (ids_exist c5Backend.annotated c5Backend.dvid ([[("bodyid", Value.vint 99)]].map recBody)) ≠ []
    ∧ set_annotations_applied [[("bodyid", Value.vint 99)]] false (Protect.pList ["user"]) c5Backend
        (fun _ => true) 50 = [] :=
  C5_unknown_ids _ _ _ _ (fun _ => true) 50 (by decide) (by decide) (by decide)

/-- The protect-all filter does not touch the "bodyid" entry as long as
the index holds no "bodyid" field, so the filtered record keeps its body
id. -/
theorem recBody_protectRecAll (existing : Int → List String) (r : Rec)
    (hb : "bodyid" ∉ existing (recBody r)) :
    recBody (protectRecAll existing r) = recBody r := by
  have hl : (protectRecAll existing r).lookup "bodyid" = r.lookup "bodyid" := by
    unfold protectRecAll
    apply lookup_filter_of_key
    intro v
    simp [List.contains, List.elem_iff]
    exact hb
  unfold recBody
  rw [hl]

/-- A pointwise stronger filter predicate yields a shorter filtered
list. -/
theorem length_filter_mono (p q : String × Value → Bool) (r : Rec)
    (h : ∀ kv, p kv = true → q kv = true) :
    (r.filter p).length ≤ (r.filter q).length := by
  induction r with
  | nil => simp
  | cons kv t ih =>
    by_cases hp : p kv = true
    · have hq := h kv hp
      simp [List.filter_cons, hp, hq]
      omega
    · by_cases hq : q kv = true
      · simp [List.filter_cons, hp, hq]
        omega
      · simpa [List.filter_cons, hp, hq] using ih

/-- C6: protect-all is idempotent. For any new records and any existing
index without a "bodyid" field, running the merge pipeline under
protect-all against the index updated with the fields written by a first
run yields the empty write-set: every surviving field of the first run is
now in its identifier's existing field set and is dropped, and every
record then shrinks to at most its bodyid entry and is elided. -/
theorem C6_protect_all_idempotent (write_empty_fields : Bool) (existing : Int → List String)
    (an : List Rec) (hb : ∀ id : Int, "bodyid" ∉ existing id) :
    mergeWrites write_empty_fields Protect.pTrue
      (updatedIdx existing (mergeWrites write_empty_fields Protect.pTrue existing an)) an
      = [] := by
  unfold mergeWrites
  simp only [normalizeNulls_eq, applyProtect]
  set an' := dropEmpties write_empty_fields an with han
  set w1 := dropSolo (List.map (protectRecAll existing) an') with hw1
  unfold dropSolo
  rw [List.filter_eq_nil_iff]
  intro r hr
  rw [List.mem_map] at hr
  obtain ⟨a, ha, rfl⟩ := hr
  simp only [decide_eq_true_eq, not_lt]
  by_cases h1 : 1 < (protectRecAll existing a).length
  · have hfmem : protectRecAll existing a ∈ w1 := by
      rw [hw1]
      unfold dropSolo
      rw [List.mem_filter]
      exact ⟨List.mem_map.mpr ⟨a, ha, rfl⟩, by simpa using h1⟩
    have hrb : recBody (protectRecAll existing a) = recBody a :=
      recBody_protectRecAll existing a (hb _)
    have hnil : protectRecAll (updatedIdx existing w1) a = [] := by
      unfold protectRecAll
      rw [List.filter_eq_nil_iff]
      intro kv hkv
      simp only [Bool.not_eq_true', Bool.not_eq_false]
      have hgoal : kv.1 ∈ updatedIdx existing w1 (recBody a) → (updatedIdx existing w1 (recBody a)).contains kv.1 = true := by
        intro hm
        simpa [List.contains, List.elem_iff] using hm
      apply hgoal
      unfold updatedIdx
      rw [List.mem_append]
      by_cases hm : kv.1 ∈ existing (recBody a)
      · exact Or.inl hm
      · right
        have hkvf : kv ∈ protectRecAll existing a := by
          unfold protectRecAll
          rw [List.mem_filter]
          refine ⟨hkv, ?_⟩
          simp [List.contains, List.elem_iff]
          exact hm
        unfold writtenFieldsFor
        rw [List.mem_flatten]
        refine ⟨recKeys (protectRecAll existing a), ?_, ?_⟩
        · rw [List.mem_map]
          refine ⟨protectRecAll existing a, ?_, rfl⟩
          rw [List.mem_filter]
          refine ⟨hfmem, ?_⟩
          rw [hrb]
          simp
        · unfold recKeys
          rw [List.mem_map]
          exact ⟨kv, hkvf, rfl⟩
    rw [hnil]
    simp
  · have hle : (protectRecAll (updatedIdx existing w1) a).length
        ≤ (protectRecAll existing a).length := by
      unfold protectRecAll
      apply length_filter_mono
      intro kv hkv
      simp only [Bool.not_eq_true', Bool.not_eq_false] at hkv ⊢
      have hkv2 : kv.1 ∉ updatedIdx existing w1 (recBody a) := by
        intro hm
        have : (updatedIdx existing w1 (recBody a)).contains kv.1 = true := by
          simpa [List.contains, List.elem_iff] using hm
        rw [this] at hkv
        exact Bool.noConfusion hkv
      have hne : kv.1 ∉ existing (recBody a) := by
        intro hm
        exact hkv2 (by unfold updatedIdx; exact List.mem_append_left _ hm)
      simpa [List.contains, List.elem_iff] using hne
    omega

/-- Witness for C6 at one record with a fresh status field and an empty
existing index. -/
theorem C6_witness :
    mergeWrites false Protect.pTrue
      (updatedIdx (fun _ => [])
        (mergeWrites false Protect.pTrue (fun _ => [])
          [[("bodyid", Value.vint 1), ("status", Value.vstr "X")]]))
      [[("bodyid", Value.vint 1), ("status", Value.vstr "X")]] = [] :=
  C6_protect_all_idempotent false (fun _ => [])
    [[("bodyid", Value.vint 1), ("status", Value.vstr "X")]]
    (fun _ => List.not_mem_nil _)

/-- C7 counterexample: with cached annotated set {1} and input [1, 2] the
unknown partition is [2], but the single batched `dv.ids_exist` query is
issued for the WHOLE input [1, 2], not only for the unknown partition as
the claim states. -/
theorem C7_counterexample :
    dvidQueried [1] [1, 2] ≠ specUnknownPartition [1] [1, 2]
    ∧ specUnknownPartition [1] [1, 2] = [2]
    ∧ dvidQueried [1] [1, 2] = [1, 2] := by
  decide

/-- C7 (amended): the existence check returns exactly one boolean per
input identifier; each result is "in the cached annotated set, OR (some
input id is outside the cached set AND the dvid store reports the id)";
and the single batched dvid query is skipped when the unknown partition is
empty and covers the WHOLE input otherwise. Determinism across repeated
calls holds because the result is a pure function of the cached set, the
store and the input. -/
theorem C7_ids_exist (annotated : List Int) (dvid : Int → Bool) (bodyid : List Int) :
    (ids_exist annotated dvid bodyid).length = bodyid.length
    ∧ ids_exist annotated dvid bodyid
        = bodyid.map (fun id => annotated.contains id
            || (bodyid.any (fun i => !annotated.contains i) && dvid id))
    ∧ (specUnknownPartition annotated bodyid = [] → dvidQueried annotated bodyid = [])
    ∧ (specUnknownPartition annotated bodyid ≠ [] → dvidQueried annotated bodyid = bodyid) := by
  have hany : ∀ (l : List Int), ((l.map (fun b => annotated.contains b)).any (fun e => !e))
      = l.any (fun b => !annotated.contains b) := by
    intro l
    induction l with
    | nil => rfl
    | cons a t ih =>
      simp only [List.map_cons, List.any_cons]
      rw [ih]
  have hmain : ids_exist annotated dvid bodyid
      = bodyid.map (fun id => annotated.contains id
          || (bodyid.any (fun i => !annotated.contains i) && dvid id)) := by
    unfold ids_exist
    dsimp only []
    by_cases h : (bodyid.any (fun b => !annotated.contains b)) = true
    · rw [if_pos (by rw [hany]; exact h)]
      rw [zipWith_map_self]
      refine List.map_congr_left ?_
      intro a ha
      rw [h, Bool.true_and]
    · have hf : (bodyid.any (fun b => !annotated.contains b)) = false := Bool.eq_false_iff.mpr h
      rw [if_neg (by rw [hany, hf]; exact Bool.false_ne_true)]
      refine List.map_congr_left ?_
      intro a ha
      rw [hf, Bool.false_and, Bool.or_false]
  refine ⟨by rw [hmain]; simp, hmain, ?_, ?_⟩
  · intro hup
    have hfalse : ((bodyid.map (fun b => annotated.contains b)).any (fun e => !e)) = false := by
      rw [hany, List.any_eq_false]
      intro b hbmem
      unfold specUnknownPartition at hup
      rw [List.filter_eq_nil_iff] at hup
      simpa using hup b hbmem
    unfold dvidQueried
    rw [if_neg (by rw [hfalse]; exact Bool.false_ne_true)]
  · intro hup
    have htrue : ((bodyid.map (fun b => annotated.contains b)).any (fun e => !e)) = true := by
      rw [hany]
      by_contra hc
      apply hup
      have hc2 : (bodyid.any (fun b => !annotated.contains b)) = false :=
        Bool.eq_false_iff.mpr hc
      rw [List.any_eq_false] at hc2
      unfold specUnknownPartition
      rw [List.filter_eq_nil_iff]
      exact hc2
    unfold dvidQueried
    rw [if_pos htrue]

/-- Witness for C7 at annotated set {1} and input [1, 2]. -/
theorem C7_witness :
    (ids_exist [1] (fun _ => true) [1, 2]).length = ([1, 2] : List Int).length :=
  (C7_ids_exist [1] (fun _ => true) [1, 2]).1

/-- C8 counterexample: with declared schema {"type": "string"} for column
`notes`, a heterogeneous column holding the integer 42 PASSES validation —
`TYPES_MAPPING["string"]` is `(str, object)` and every Python value is an
instance of `object` — although the integer's runtime kind is outside the
declared acceptable kind set, so validation does not reject exactly the
out-of-set columns. -/
theorem C8_counterexample :
    _validate_schema c8SchemaStr ["notes"] [("notes", [Value.vstr "a", Value.vint 42])]
      = Except.ok ()
    ∧ specKindAcceptable "string" (Value.vint 42) = false
    ∧ Value.vint 42 ∈ [Value.vstr "a", Value.vint 42] := by
  decide

/-- C8 (amended): the two concrete instances hold — under declared schema
{"type": "integer"} for column `type`, the value "abc" raises a type
mismatch and the value 42 passes — and in general the column check
succeeds iff EITHER the column is object-dtype, passes the nullability
rule and every non-null value is an `isinstance` of some mapped type, OR
the column is homogeneous and its dtype is in the mapped type tuple. -/
theorem C8_validation (nullable : Bool) (ts : List PyType) (vs : List Value) :
    _validate_schema c8SchemaInt ["type"] [("type", [Value.vstr "abc"])]
      = Except.error (SchemaErr.typeMismatch "type")
    ∧ _validate_schema c8SchemaInt ["type"] [("type", [Value.vint 42])] = Except.ok ()
    ∧ (checkColumn "c" nullable ts vs = Except.ok () ↔
        ((dtypeOf vs = Dtype.dtObj
            ∧ (nullable = true ∨ ∀ v ∈ vs, pd_isnull v = false)
            ∧ ∀ v ∈ vs, pd_isnull v = false → ts.any (isinstanceOf v) = true)
          ∨ (dtypeOf vs ≠ Dtype.dtObj ∧ dtypeInTypes (dtypeOf vs) ts = true))) := by
  have hfind_iff : ((vs.filter (fun v => !pd_isnull v)).find? (fun v => !ts.any (isinstanceOf v))
        = none)
      ↔ (∀ v ∈ vs, pd_isnull v = false → ts.any (isinstanceOf v) = true) := by
    rw [List.find?_eq_none]
    constructor
    · intro h v hv hnn
      have := h v (List.mem_filter.mpr ⟨hv, by rw [hnn]; rfl⟩)
      simpa using this
    · intro h v hv
      rw [List.mem_filter] at hv
      have := h v hv.1 (by simpa using hv.2)
      simp [this]
  have hnull_iff : ((!nullable && vs.any pd_isnull) = false)
      ↔ (nullable = true ∨ ∀ v ∈ vs, pd_isnull v = false) := by
    cases nullable with
    | true => simp
    | false => simp [List.any_eq_false]
  refine ⟨by decide, by decide, ?_⟩
  unfold checkColumn
  by_cases hd : dtypeOf vs = Dtype.dtObj
  · rw [if_pos hd]
    by_cases hn : (!nullable && vs.any pd_isnull) = true
    · rw [if_pos hn]
      have hcontra : ¬(nullable = true ∨ ∀ v ∈ vs, pd_isnull v = false) := by
        intro hc
        rw [← hnull_iff] at hc
        rw [hc] at hn
        exact Bool.noConfusion hn
      constructor
      · intro h
        exact Except.noConfusion h
      · rintro (⟨-, hnul, -⟩ | ⟨hne, -⟩)
        · exact absurd hnul hcontra
        · exact absurd hd hne
    · rw [if_neg hn]
      have hn' : (!nullable && vs.any pd_isnull) = false := by simpa using hn
      cases hf : (vs.filter (fun v => !pd_isnull v)).find? (fun v => !ts.any (isinstanceOf v)) with
      | some v =>
        constructor
        · intro h
          exact Except.noConfusion h
        · rintro (⟨-, -, hall⟩ | ⟨hne, -⟩)
          · rw [← hfind_iff] at hall
            rw [hall] at hf
            exact Option.noConfusion hf
          · exact absurd hd hne
      | none =>
        constructor
        · intro _
          exact Or.inl ⟨hd, hnull_iff.mp hn', hfind_iff.mp hf⟩
        · intro _
          rfl
  · rw [if_neg hd]
    by_cases hdt : dtypeInTypes (dtypeOf vs) ts = true
    · rw [if_neg (by simp [hdt])]
      constructor
      · intro _
        exact Or.inr ⟨hd, hdt⟩
      · intro _
        rfl
    · have hdt' : dtypeInTypes (dtypeOf vs) ts = false := by simpa using hdt
      rw [if_pos (by simp [hdt'])]
      constructor
      · intro h
        exact Except.noConfusion h
      · rintro (⟨hobj, -, -⟩ | ⟨-, ht⟩)
        · exact absurd hobj hd
        · rw [ht] at hdt
          exact absurd rfl hdt

/-- Witness for C8 at a homogeneous integer column under the integer
schema type tuple. -/
theorem C8_witness :
    checkColumn "c" true [PyType.pyInt] [Value.vint 3] = Except.ok () :=
  (C8_validation true [PyType.pyInt] [Value.vint 3]).2.2.mpr
    (Or.inr ⟨by decide, by decide⟩)

/-- Concatenating the chunks gives back the original list (fuel-indexed
core). -/
theorem chunksOfGo_flatten {α : Type} (cs : Nat) (hcs : 0 < cs) :
    ∀ (fuel : Nat) (l : List α), l.length ≤ fuel → (chunksOfGo cs fuel l).flatten = l := by
  intro fuel
  induction fuel with
  | zero =>
    intro l hl
    cases l with
    | nil => rfl
    | cons a t => simp at hl
  | succ n ih =>
    intro l hl
    cases l with
    | nil => rfl
    | cons a t =>
      have ht : t.length ≤ n := by
        simp only [List.length_cons] at hl
        omega
      show (((a :: t).take cs) :: chunksOfGo cs n (t.drop (cs - 1))).flatten = a :: t
      rw [List.flatten_cons]
      rw [ih (t.drop (cs - 1)) (by simp only [List.length_drop]; omega)]
      obtain ⟨m, rfl⟩ : ∃ m, cs = m + 1 := ⟨cs - 1, by omega⟩
      rw [List.take_succ_cons, Nat.add_sub_cancel, List.cons_append, List.take_append_drop]

/-- Every chunk holds at most `cs` records (fuel-indexed core). -/
theorem chunksOfGo_chunk_le {α : Type} (cs : Nat) :
    ∀ (fuel : Nat) (l : List α) (c : List α), c ∈ chunksOfGo cs fuel l → c.length ≤ cs := by
  intro fuel
  induction fuel with
  | zero =>
    intro l c hc
    cases l with
    | nil => simp [chunksOfGo] at hc
    | cons a t => simp [chunksOfGo] at hc
  | succ n ih =>
    intro l c hc
    cases l with
    | nil => simp [chunksOfGo] at hc
    | cons a t =>
      simp only [chunksOfGo, List.mem_cons] at hc
      rcases hc with rfl | hc
      · exact List.length_take_le _ _
      · exact ih _ _ hc

/-- Behaviour of the upload loop from any starting chunk index: no failure
means every chunk was applied and sent; a failure at index `j` means the
chunks before it were applied and the failing one was also sent, nothing
after. -/
theorem uploadFrom_spec (respOk : Nat → Bool) :
    ∀ (cl : List (List Rec)) (i : Nat),
      ((uploadFrom respOk i cl).failedChunk = none →
        (uploadFrom respOk i cl).applied = cl ∧ (uploadFrom respOk i cl).sent = cl)
      ∧ ∀ j, (uploadFrom respOk i cl).failedChunk = some j →
          i ≤ j ∧ (uploadFrom respOk i cl).applied = cl.take (j - i)
            ∧ (uploadFrom respOk i cl).sent = cl.take (j - i + 1) := by
  intro cl
  induction cl with
  | nil =>
    intro i
    constructor
    · intro _
      exact ⟨rfl, rfl⟩
    · intro j hj
      simp [uploadFrom] at hj
  | cons c rest ih =>
    intro i
    by_cases hr : respOk i = true
    · have hu : uploadFrom respOk i (c :: rest)
          = ⟨c :: (uploadFrom respOk (i + 1) rest).applied,
             c :: (uploadFrom respOk (i + 1) rest).sent,
             (uploadFrom respOk (i + 1) rest).failedChunk⟩ := by
        simp [uploadFrom, hr]
      rw [hu]
      dsimp only
      constructor
      · intro hn
        obtain ⟨ha, hs⟩ := (ih (i + 1)).1 hn
        exact ⟨by rw [ha], by rw [hs]⟩
      · intro j hj
        obtain ⟨hij, ha, hs⟩ := (ih (i + 1)).2 j hj
        refine ⟨by omega, ?_, ?_⟩
        · rw [ha]
          have h1 : j - i = (j - (i + 1)) + 1 := by omega
          rw [h1, List.take_succ_cons]
        · rw [hs]
          have h1 : j - i + 1 = (j - (i + 1) + 1) + 1 := by omega
          rw [h1, List.take_succ_cons]
    · have hu : uploadFrom respOk i (c :: rest) = ⟨[], [c], some i⟩ := by
        simp [uploadFrom, hr]
      rw [hu]
      dsimp only
      constructor
      · intro hn
        exact Option.noConfusion hn
      · intro j hj
        have hij : i = j := Option.some.inj hj
        subst hij
        refine ⟨le_refl i, ?_, ?_⟩
        · simp
        · simp

/-- C9 (amended): the uploader splits the write-set into contiguous,
order-preserving chunks of at most `cs` records (default chunk size 50)
and sends them in order; with no failure every chunk is applied; a non-2xx
response on chunk `j` leaves exactly the first `j` chunks applied and the
first `j + 1` chunks sent — the failing chunk itself was POSTed but not
applied, and nothing after it is sent. In the spec scenario (chunk size 2,
five writes, third chunk answers 500) chunks one and two (four records)
are applied, and the third chunk holding record 5 was sent but failed. -/
theorem C9_chunked_upload (cs : Nat) (l : List Rec) (respOk : Nat → Bool) (an : List Rec)
    (j : Nat) (hcs : 0 < cs) :
    ((chunksOf cs l).flatten = l ∧ ∀ c ∈ chunksOf cs l, c.length ≤ cs)
    ∧ ((upload respOk cs an).failedChunk = none →
        (upload respOk cs an).applied = chunksOf cs an
        ∧ (upload respOk cs an).sent = chunksOf cs an)
    ∧ ((upload respOk cs an).failedChunk = some j →
        (upload respOk cs an).applied = (chunksOf cs an).take j
        ∧ (upload respOk cs an).sent = (chunksOf cs an).take (j + 1))
    ∧ defaultChunksize = 50
    ∧ upload (fun i => i != 2) 2 c9Records
        = ⟨[[c9r 1, c9r 2], [c9r 3, c9r 4]], [[c9r 1, c9r 2], [c9r 3, c9r 4], [c9r 5]], some 2⟩ := by
  refine ⟨⟨?_, ?_⟩, ?_, ?_, rfl, by decide⟩
  · unfold chunksOf
    rw [if_neg (by omega)]
    exact chunksOfGo_flatten cs hcs l.length l (le_refl _)
  · intro c hc
    unfold chunksOf at hc
    rw [if_neg (by omega)] at hc
    exact chunksOfGo_chunk_le cs l.length l c hc
  · intro hn
    exact (uploadFrom_spec respOk (chunksOf cs an) 0).1 hn
  · intro hj
    obtain ⟨-, ha, hs⟩ := (uploadFrom_spec respOk (chunksOf cs an) 0).2 j hj
    rw [Nat.sub_zero] at ha hs
    exact ⟨ha, hs⟩

/-- C9 counterexample: in the spec scenario (chunk size 2, five writes,
third chunk fails) record 5 IS sent — it is the content of the failing
third chunk, POSTed before `raise_for_status` aborts — contradicting the
claim that record 5 is un-sent; it is merely not applied (four records
are). -/
theorem C9_counterexample :
    c9r 5 ∈ (upload (fun i => i != 2) 2 c9Records).sent.flatten
    ∧ c9r 5 ∉ (upload (fun i => i != 2) 2 c9Records).applied.flatten
    ∧ (upload (fun i => i != 2) 2 c9Records).applied.flatten.length = 4 := by
  decide

/-- Witness for C9: the general theorem instantiated gives the concrete
scenario outcome. -/
theorem C9_witness :
    upload (fun i => i != 2) 2 c9Records
      = ⟨[[c9r 1, c9r 2], [c9r 3, c9r 4]], [[c9r 1, c9r 2], [c9r 3, c9r 4], [c9r 5]], some 2⟩ :=
  (C9_chunked_upload 2 [] (fun i => i != 2) c9Records 2 (by decide)).2.2.2.2

/-- C10 counterexample: a null value for the default-protected `user`
field, pushed through `set_fields` for a body whose remote annotations
already hold `user`, is dropped by the protection step and the record is
elided — nothing is written, although the claim says a null field supplied
through `set_fields` is written. -/
theorem C10_counterexample :
    set_fields [1] [("user", Value.vnull)] (Protect.pList ["user"]) c10Backend
      = Except.ok [] := by
  decide

/-- C10 (amended): `set_fields` always delegates its constructed table to
`set_annotations` with `write_empty_fields` fixed to True; with that flag
the empty-field step drops nothing, so a null field value survives it and
— when the protection policy does not drop it — is normalized to an
explicit null and written, as in the concrete run where a null `status`
is written for body 1. -/
theorem C10_set_fields (ids : List Int) (fields : List (String × Value)) (protect : Protect)
    (b : Backend) (x : List Rec) :
    set_fields ids fields protect b = set_annotations (set_fields_table ids fields) true protect b
    ∧ dropEmpties true x = x
    ∧ set_fields [1] [("status", Value.vnull)] (Protect.pList ["user"]) c10Backend
        = Except.ok [[("bodyid", Value.vint 1), ("status", Value.vnull)]] :=
  ⟨rfl, rfl, by decide⟩

/-- Witness for C10: the concrete null-status write through the general
theorem. -/
theorem C10_witness :
    set_fields [1] [("status", Value.vnull)] (Protect.pList ["user"]) c10Backend
      = Except.ok [[("bodyid", Value.vint 1), ("status", Value.vnull)]] :=
  (C10_set_fields [] [] Protect.pFalse c10Backend []).2.2
